import Mathlib

/-!
Verification of the Eaton ePDU control script (`eaton-epdu.py`) against its
specification.  The Python source is shallowly embedded below: pure helpers
become Lean functions, the session/logout state machine becomes explicit state
passing over a small state record, and the byte strings handled by the script
are modelled as `String` / `List Char` (the script only ever handles ASCII
data, for which UTF-8 bytes and characters are in bijection).
-/

/-! ## Character classes of the regular expressions used by the validators

The script uses `re.match` with the patterns `[A-Z0-9]{10}` and
`[0-9]{2}.[0-9]{2}.[0-9]{4}` (note: the dots in the second pattern are
unescaped, so they are the regex wildcard, which matches any character other
than a newline).  `re.match` anchors at the start of the string only, i.e. it
performs a prefix match. -/

/-- Regex class `[0-9]`. -/
def digitClass (c : Char) : Bool := decide ('0' ≤ c ∧ c ≤ '9')

/-- Regex class `[A-Z0-9]`. -/
def upperDigitClass (c : Char) : Bool :=
  decide (('A' ≤ c ∧ c ≤ 'Z') ∨ ('0' ≤ c ∧ c ≤ '9'))

/-- Regex wildcard `.` (without `DOTALL`): any character except a newline. -/
def anyClass (c : Char) : Bool := decide (c ≠ '\n')

/-- Anchored matching of a list of single-character classes against the
start of a character list, the semantics of `re.match` for the fixed-shape
patterns used in the script. -/
def matchesPat : List (Char → Bool) → List Char → Bool
  | [], _ => true
  | _ :: _, [] => false
  | p :: ps, c :: cs => p c && matchesPat ps cs

/-- The pattern of `_is_serial_ok`: `[A-Z0-9]{10}`. -/
def serialPat : List (Char → Bool) := List.replicate 10 upperDigitClass

/-- The pattern of `_is_version_ok`: `[0-9]{2}.[0-9]{2}.[0-9]{4}` with the
dots left unescaped, hence regex wildcards. -/
def versionPat : List (Char → Bool) :=
  [digitClass, digitClass, anyClass, digitClass, digitClass, anyClass,
   digitClass, digitClass, digitClass, digitClass]

/-- Modelled from the spec's words (for comparison with the source): the
version pattern as the spec states it, `\d\x7b2\x7d\.\d\x7b2\x7d\.\d\x7b4\x7d`,
with literal dots at positions 2 and 5. -/
def specVersionPat : List (Char → Bool) :=
  [digitClass, digitClass, fun c => decide (c = '.'), digitClass, digitClass,
   fun c => decide (c = '.'), digitClass, digitClass, digitClass, digitClass]

/-! ## The three validators (`ePDU._is_part_number_ok`, `_is_serial_ok`,
`_is_version_ok`)

The two regex validators wrap the call in `try ... except TypeError: return
False`, so a `None` argument (modelled as `Option.none`) yields `false`
rather than an exception. -/

/-- The fixed list `supported` of `ePDU._is_part_number_ok`. -/
def supported : List String := ["EILB13", "EILB14", "EILB15", "EMIH28", "EMAB04"]

/-- `ePDU._is_part_number_ok`: membership test in `supported`. -/
def isPartNumberOk (pn : String) : Bool :=
  if pn ∈ supported then true else false

/-- `ePDU._is_serial_ok`: `bool(re.match('[A-Z0-9]\x7b10\x7d', serial))`,
with `TypeError` (a `None` argument) caught and turned into `False`. -/
def isSerialOk : Option String → Bool
  | none => false
  | some s => matchesPat serialPat s.data

/-- `ePDU._is_version_ok`: `bool(re.match('[0-9]\x7b2\x7d.[0-9]\x7b2\x7d.[0-9]\x7b4\x7d', version))`,
with `TypeError` (a `None` argument) caught and turned into `False`. -/
def isVersionOk : Option String → Bool
  | none => false
  | some s => matchesPat versionPat s.data

/-! ## The response post-processing of `ePDU._send_command`

`response = stdout.strip(self._prompt).strip(send)` uses Python
`bytes.strip`, which removes from both ends every byte that is a member of
the byte *set* of its argument (it does not remove the argument as a
substring).  Then `reply = response.decode().replace('\r', '').replace('\n', '')`
removes every carriage return and line feed. -/

/-- Python `bytes.strip(chars)`: drop from the left, then from the right,
every byte contained in `chars`. -/
def pyStrip (chars : List Char) (s : List Char) : List Char :=
  (((s.dropWhile (fun c => chars.contains c)).reverse.dropWhile
      (fun c => chars.contains c)).reverse)

/-- The bytes `_send_command` writes to the channel: the command followed by
a carriage return. -/
def sendWire (cmd : String) : String := cmd ++ "\r"

/-- The reply computed by `_send_command` from the captured prompt bytes, the
command, and the raw bytes read back from the channel:
`stdout.strip(self._prompt).strip(send)`, then removal of every CR and LF. -/
def sendCommandReply (prompt : List Char) (cmd : String) (raw : List Char) : String :=
  let send := (sendWire cmd).data
  let response := pyStrip send (pyStrip prompt raw)
  ⟨response.filter (fun c => !(c == '\r' || c == '\n'))⟩

/-- Containment of `needle` as a contiguous byte sequence of `hay`
(Boolean form of `List.IsInfix`), used to state C1's side conditions. -/
def containsSeq (needle hay : List Char) : Bool := decide (needle <:+: hay)

/-! ## Identity discovery (`ePDU._get_info`) and its error behaviour

`_get_info` issues four `get` calls (serial number, part number, firmware
version, outlet count, in the order of the `objects` list) and then runs the
three validators.  Each `raise` statement builds its message with
`str(objects['PDU.PowerSummary...'])` — but `objects` is a *list*, so the
string subscript raises `TypeError('list indices must be integers or
slices, not str')` before the `ePDUException` is constructed. -/

/-- The Python exceptions that can escape the embedded fragments: the
`ePDUException` the script intends to raise (carrying field and value), and
the built-in `TypeError` / `ValueError`. -/
inductive PyError where
  | validationError (field : String) (value : String)
  | typeError (msg : String)
  | valueError (msg : String)
deriving DecidableEq, Repr

/-- The `TypeError` raised by subscripting the list `objects` with a string. -/
def listStrIndexError : PyError :=
  PyError.typeError "list indices must be integers or slices, not str"

/-- The four raw replies a device gives to the four identity queries of
`_get_info`, in the order they are fetched. -/
structure DeviceReplies where
  serial : String
  part : String
  version : String
  count : String
deriving DecidableEq, Repr

/-- The `params` dictionary built by `_get_info`, keyed here by field. -/
structure DeviceInfo where
  serial : String
  part : String
  version : String
  count : String
deriving DecidableEq, Repr

/-- `ePDU._get_info`: fetch the four replies, then validate firmware
version, serial number and part number, in that order.  A failing validator
reaches a `raise` whose message expression subscripts the list `objects`
with a string key and therefore raises `TypeError` instead of the intended
`ePDUException`.  The outlet count is stored without any validation. -/
def getInfo (r : DeviceReplies) : Except PyError DeviceInfo :=
  if ¬ isVersionOk (some r.version) = true then
    Except.error listStrIndexError
  else if ¬ isSerialOk (some r.serial) = true then
    Except.error listStrIndexError
  else if ¬ isPartNumberOk r.part = true then
    Except.error listStrIndexError
  else
    Except.ok ⟨r.serial, r.part, r.version, r.count⟩

/-! ## Python `int(...)` and `ePDU.number_of_outlets` -/

/-- Python whitespace stripped by `int(str)` (restricted to the ASCII
whitespace characters; the script only ever receives ASCII). -/
def pyIsSpace (c : Char) : Bool :=
  c == ' ' || c == '\t' || c == '\n' || c == '\r' || c == '\x0b' || c == '\x0c'

/-- Strip leading and trailing whitespace, as `int(str)` does before
parsing. -/
def pyStripWs (l : List Char) : List Char :=
  ((l.dropWhile pyIsSpace).reverse.dropWhile pyIsSpace).reverse

/-- Digits after the first one, with single underscores permitted between
digits (CPython's integer-literal grammar). -/
def parseDigitsU : List Char → Nat → Option Nat
  | [], acc => some acc
  | c :: cs, acc =>
    if c = '_' then
      match cs with
      | [] => none
      | d :: ds =>
        if digitClass d then parseDigitsU ds (acc * 10 + (d.toNat - 48)) else none
    else if digitClass c then parseDigitsU cs (acc * 10 + (c.toNat - 48))
    else none

/-- A nonempty digit string (underscore-separated groups allowed), mapped to
its value. -/
def parseUDigits : List Char → Option Nat
  | [] => none
  | c :: cs => if digitClass c then parseDigitsU cs (c.toNat - 48) else none

/-- Python `int(s)` for a decimal string: strip whitespace, allow one sign,
then a nonempty digit sequence; anything else raises `ValueError`, modelled
as `none`. -/
def pyIntParse (s : String) : Option Int :=
  match pyStripWs s.data with
  | [] => none
  | c :: rest =>
    if c = '-' then (parseUDigits rest).map (fun n => -(n : Int))
    else if c = '+' then (parseUDigits rest).map (fun n => (n : Int))
    else (parseUDigits (c :: rest)).map (fun n => (n : Int))

/-- The value of a digit string under the usual decimal reading. -/
def decValue (l : List Char) : Nat :=
  l.foldl (fun a c => a * 10 + (c.toNat - 48)) 0

/-- `ePDU.number_of_outlets`: `int(self._info['PDU.OutletSystem.Outlet.Count'])`;
a non-numeric stored count makes `int` raise `ValueError`. -/
def number_of_outlets (info : DeviceInfo) : Except PyError Int :=
  match pyIntParse info.count with
  | some n => Except.ok n
  | none =>
      Except.error (PyError.valueError
        ("invalid literal for int() with base 10: " ++ info.count))

/-! ## Session state machine: `login` tail, `logout`, and the observable
actions they perform on the transport -/

/-- The externally observable operations the script performs on its SSH
client, channel, and standard output. -/
inductive PduAction where
  | send (wire : String)
  | closeChannel
  | closeClient
  | printMsg (msg : String)
deriving DecidableEq, Repr

/-- The mutable attributes of the `ePDU` object that the login/logout logic
reads and writes. -/
structure PduState where
  logged_in : Bool
  channelOpen : Bool
  clientOpen : Bool
deriving DecidableEq, Repr

/-- The state of a freshly constructed `ePDU` object. -/
def initState : PduState := ⟨false, false, false⟩

/-- `ePDU.logout`: if `_logged_in`, clear the flag, send `quit`, close the
channel, close the client; otherwise only print `Not logged in.`.  The
embedded function is total: the not-logged-in branch performs no channel or
client operation and cannot raise. -/
def logout (s : PduState) : PduState × List PduAction :=
  if s.logged_in then
    (⟨false, false, false⟩,
     [PduAction.send (sendWire "quit"), PduAction.closeChannel, PduAction.closeClient])
  else
    (s, [PduAction.printMsg "Not logged in."])

/-- The tail of `ePDU.login` after a successful transport connection: the
client and channel attributes are assigned, the prompt is captured, then
`self._info = self._get_info()` runs; only after it returns is
`self._logged_in = True` executed.  If `_get_info` raises, the exception
propagates with the flag still `False` and the client and channel still
open. -/
def login_after_connect (s : PduState) (r : DeviceReplies) :
    PduState × Except PyError DeviceInfo :=
  let s1 : PduState := ⟨s.logged_in, true, true⟩
  match getInfo r with
  | Except.error e => (s1, Except.error e)
  | Except.ok info => (⟨true, s1.channelOpen, s1.clientOpen⟩, Except.ok info)

/-! ## Outlet operations and the CLI on/off loops of `main` -/

/-- The object path used by `ePDU.turn_on_outlet`. -/
def onPath (outlet : Int) : String :=
  "PDU.OutletSystem.Outlet[" ++ toString outlet ++ "].DelayBeforeStartup"

/-- The object path used by `ePDU.turn_off_outlet`. -/
def offPath (outlet : Int) : String :=
  "PDU.OutletSystem.Outlet[" ++ toString outlet ++ "].DelayBeforeShutdown"

/-- `ePDU.set_object`: the command string `'set ' + option + ' ' + val`. -/
def setObjectCmd (option val : String) : String :=
  "set " ++ option ++ " " ++ val

/-- The transport actions performed by `ePDU.turn_on_outlet`: one
`_send_command` of the `set` command for the startup-delay object with value
`"0"`. -/
def turn_on_actions (outlet : Int) : List PduAction :=
  [PduAction.send (sendWire (setObjectCmd (onPath outlet) "0"))]

/-- The transport actions performed by `ePDU.turn_off_outlet`. -/
def turn_off_actions (outlet : Int) : List PduAction :=
  [PduAction.send (sendWire (setObjectCmd (offPath outlet) "0"))]

/-- The text printed by `main` for an out-of-range outlet index:
`print('No such outlet: \x7b\x7d', num)` prints its two arguments separated
by a space. -/
def warnText (n : Int) : String := "No such outlet: {} " ++ toString n

/-- One iteration of the `--on` loop in `main`: skip with a warning when the
index is below 1 or above the outlet count, otherwise call
`turn_on_outlet`. -/
def mainOnStep (count : Int) (num : Int) : List PduAction :=
  if num < 1 ∨ num > count then [PduAction.printMsg (warnText num)]
  else turn_on_actions num

/-- One iteration of the `--off` loop in `main`. -/
def mainOffStep (count : Int) (num : Int) : List PduAction :=
  if num < 1 ∨ num > count then [PduAction.printMsg (warnText num)]
  else turn_off_actions num

/-- The whole `--on` loop of `main` over the requested indices. -/
def mainOnLoop (count : Int) (nums : List Int) : List PduAction :=
  nums.flatMap (mainOnStep count)

/-- The whole `--off` loop of `main`. -/
def mainOffLoop (count : Int) (nums : List Int) : List PduAction :=
  nums.flatMap (mainOffStep count)

/-- Discriminator for the kind of exception `_get_info` produced: `true`
exactly when the result is the intended `ePDUException` validation error. -/
def isValidationError : Except PyError DeviceInfo → Bool
  | Except.error (PyError.validationError _ _) => true
  | _ => false

/-! ## Helper lemmas -/

lemma matchesPat_replicate (p : Char → Bool) (n : Nat) (l : List Char) :
    matchesPat (List.replicate n p) l = true ↔
      n ≤ l.length ∧ ∀ c ∈ l.take n, p c = true := by
  induction n generalizing l with
  | zero => simp [matchesPat]
  | succ n ih =>
    cases l with
    | nil => simp [List.replicate_succ, matchesPat]
    | cons c cs =>
      simp only [List.replicate_succ, matchesPat, Bool.and_eq_true, ih,
        List.length_cons, Nat.succ_le_succ_iff, List.take_succ_cons, List.mem_cons]
      constructor
      · rintro ⟨hp, hn, hall⟩
        exact ⟨hn, fun d hd => hd.elim (fun h => h ▸ hp) (hall d)⟩
      · rintro ⟨hn, hall⟩
        exact ⟨hall c (Or.inl rfl), hn, fun d hd => hall d (Or.inr hd)⟩

lemma parseDigitsU_cons (c : Char) (cs : List Char) (acc : Nat) :
    parseDigitsU (c :: cs) acc =
      if c = '_' then
        match cs with
        | [] => none
        | d :: ds =>
          if digitClass d then parseDigitsU ds (acc * 10 + (d.toNat - 48)) else none
      else if digitClass c then parseDigitsU cs (acc * 10 + (c.toNat - 48))
      else none := by
  rw [parseDigitsU.eq_def]

lemma parseDigitsU_all_digits (l : List Char) :
    ∀ acc : Nat, (∀ c ∈ l, digitClass c = true) →
      parseDigitsU l acc = some (l.foldl (fun a c => a * 10 + (c.toNat - 48)) acc) := by
  induction l with
  | nil => intro acc _; simp [parseDigitsU]
  | cons c cs ih =>
    intro acc h
    have hc : digitClass c = true := h c (by simp)
    have hne : ¬ c = '_' := fun he => by subst he; exact absurd hc (by decide)
    rw [parseDigitsU_cons, if_neg hne, if_pos hc, List.foldl_cons]
    exact ih _ (fun d hd => h d (List.mem_cons_of_mem _ hd))

lemma digit_not_space {c : Char} (h : digitClass c = true) : pyIsSpace c = false := by
  cases hps : pyIsSpace c
  · rfl
  · exfalso
    simp only [pyIsSpace, Bool.or_eq_true, beq_iff_eq] at hps
    rcases hps with ((((h1 | h1) | h1) | h1) | h1) | h1 <;>
      (subst h1; exact absurd h (by decide))

lemma dropWhile_space_of_digits (l : List Char)
    (h : ∀ c ∈ l, digitClass c = true) : l.dropWhile pyIsSpace = l := by
  cases l with
  | nil => rfl
  | cons c cs =>
    simp [List.dropWhile_cons, digit_not_space (h c (by simp))]

lemma pyStripWs_digits (l : List Char) (h : ∀ c ∈ l, digitClass c = true) :
    pyStripWs l = l := by
  unfold pyStripWs
  rw [dropWhile_space_of_digits l h,
    dropWhile_space_of_digits l.reverse (fun c hc => h c (List.mem_reverse.mp hc)),
    List.reverse_reverse]

lemma pyIntParse_digits (l : List Char) (hne : l ≠ [])
    (h : ∀ c ∈ l, digitClass c = true) :
    pyIntParse ⟨l⟩ = some ((decValue l : Nat) : Int) := by
  unfold pyIntParse
  simp only [show (⟨l⟩ : String).data = l from rfl, pyStripWs_digits l h]
  cases l with
  | nil => exact absurd rfl hne
  | cons c cs =>
    have hc := h c (by simp)
    have hminus : ¬ c = '-' := fun he => by subst he; exact absurd hc (by decide)
    have hplus : ¬ c = '+' := fun he => by subst he; exact absurd hc (by decide)
    simp only [if_neg hminus, if_neg hplus, parseUDigits, if_pos hc,
      parseDigitsU_all_digits cs _ (fun d hd => h d (List.mem_cons_of_mem _ hd)),
      Option.map_some']
    simp [decValue]

lemma onWire_eq (n : Int) :
    sendWire (setObjectCmd (onPath n) "0") =
      "set PDU.OutletSystem.Outlet[" ++ toString n ++ "].DelayBeforeStartup 0\r" := by
  apply String.ext
  simp [sendWire, setObjectCmd, onPath, String.data_append, List.append_assoc,
    List.cons_append, List.nil_append]

lemma offWire_eq (n : Int) :
    sendWire (setObjectCmd (offPath n) "0") =
      "set PDU.OutletSystem.Outlet[" ++ toString n ++ "].DelayBeforeShutdown 0\r" := by
  apply String.ext
  simp [sendWire, setObjectCmd, offPath, String.data_append, List.append_assoc,
    List.cons_append, List.nil_append]

/-! ## Claim theorems -/

/-- Claim C4: the serial-number validator accepts a string exactly when its
first ten characters exist and are all drawn from uppercase A-Z or digits
0-9 (a prefix match); in particular it accepts "AB12CD34EF", rejects the
lowercase "ab12cd34ef" and the too-short "SHORT", and an absent
(None-equivalent) value is rejected rather than raising. -/
theorem C4_serial_validator (s : Option String) :
    (isSerialOk s = true ↔ ∃ t, s = some t ∧ 10 ≤ t.data.length ∧
        ∀ c ∈ t.data.take 10, ('A' ≤ c ∧ c ≤ 'Z') ∨ ('0' ≤ c ∧ c ≤ '9')) ∧
    isSerialOk (some "AB12CD34EF") = true ∧
    isSerialOk (some "ab12cd34ef") = false ∧
    isSerialOk (some "SHORT") = false ∧
    isSerialOk none = false := by
  refine ⟨?_, by decide, by decide, by decide, rfl⟩
  cases s with
  | none => simp [isSerialOk]
  | some t =>
    simp only [isSerialOk, serialPat, matchesPat_replicate, upperDigitClass,
      decide_eq_true_eq, Option.some.injEq]
    constructor
    · rintro ⟨hlen, hall⟩
      exact ⟨t, rfl, hlen, hall⟩
    · rintro ⟨t', ht', hlen, hall⟩
      cases ht'
      exact ⟨hlen, hall⟩

/-- Claim C4 witness: the characterization applied at the accepted input
"AB12CD34EF". -/
theorem C4_serial_validator_witness : isSerialOk (some "AB12CD34EF") = true :=
  (C4_serial_validator (some "AB12CD34EF")).1.mpr
    ⟨"AB12CD34EF", rfl, by decide, by decide⟩

/-- Claim C5: the part-number validator accepts a string if and only if it
is exactly one of the five codes EILB13, EILB14, EILB15, EMIH28, EMAB04,
compared case-sensitively; every other string is rejected. -/
theorem C5_part_number_validator (s : String) :
    isPartNumberOk s = true ↔
      s = "EILB13" ∨ s = "EILB14" ∨ s = "EILB15" ∨ s = "EMIH28" ∨ s = "EMAB04" := by
  have hm : isPartNumberOk s = true ↔ s ∈ supported := by
    unfold isPartNumberOk
    split
    · simp_all
    · simp_all
  rw [hm]
  simp [supported]

/-- Claim C5 witness: the characterization applied at the accepted code
"EILB13". -/
theorem C5_part_number_validator_witness : isPartNumberOk "EILB13" = true :=
  (C5_part_number_validator "EILB13").mpr (Or.inl rfl)

/-- Claim C3 counterexample: the claim says the firmware-version validator
accepts exactly the strings whose prefix is two digits, a literal dot, two
digits, a literal dot, four digits.  The code's regex leaves the dots
unescaped, so the validator accepts "01a23b4567", a string with no such
literal-dot prefix. -/
theorem C3_version_validator_counterexample :
    isVersionOk (some "01a23b4567") = true ∧
    matchesPat specVersionPat "01a23b4567".data = false :=
  ⟨by decide, by decide⟩

/-- Claim C3 (amended): the firmware-version validator accepts a string
exactly when it starts with two digits, any character other than a newline,
two digits, any character other than a newline, and four digits (the
unescaped regex dot matches any non-newline character); it accepts
"01.23.4567" and rejects "abc", "", and an absent (None-equivalent)
value. -/
theorem C3_version_validator :
    (∀ s : String, isVersionOk (some s) = true ↔
      ∃ a b x c d y e f g h rest,
        s.data = a :: b :: x :: c :: d :: y :: e :: f :: g :: h :: rest ∧
        ('0' ≤ a ∧ a ≤ '9') ∧ ('0' ≤ b ∧ b ≤ '9') ∧ x ≠ '\n' ∧
        ('0' ≤ c ∧ c ≤ '9') ∧ ('0' ≤ d ∧ d ≤ '9') ∧ y ≠ '\n' ∧
        ('0' ≤ e ∧ e ≤ '9') ∧ ('0' ≤ f ∧ f ≤ '9') ∧
        ('0' ≤ g ∧ g ≤ '9') ∧ ('0' ≤ h ∧ h ≤ '9')) ∧
    isVersionOk (some "01.23.4567") = true ∧
    isVersionOk (some "abc") = false ∧
    isVersionOk (some "") = false ∧
    isVersionOk none = false := by
  refine ⟨fun s => ?_, by decide, by decide, by decide, rfl⟩
  constructor
  · intro hm
    simp only [isVersionOk] at hm
    rcases hl0 : s.data with _ | ⟨a, l1⟩
    · rw [hl0] at hm; simp [versionPat, matchesPat] at hm
    rw [hl0] at hm
    rcases l1 with _ | ⟨b, l2⟩
    · simp [versionPat, matchesPat] at hm
    rcases l2 with _ | ⟨x, l3⟩
    · simp [versionPat, matchesPat] at hm
    rcases l3 with _ | ⟨c, l4⟩
    · simp [versionPat, matchesPat] at hm
    rcases l4 with _ | ⟨d, l5⟩
    · simp [versionPat, matchesPat] at hm
    rcases l5 with _ | ⟨y, l6⟩
    · simp [versionPat, matchesPat] at hm
    rcases l6 with _ | ⟨e, l7⟩
    · simp [versionPat, matchesPat] at hm
    rcases l7 with _ | ⟨f, l8⟩
    · simp [versionPat, matchesPat] at hm
    rcases l8 with _ | ⟨g, l9⟩
    · simp [versionPat, matchesPat] at hm
    rcases l9 with _ | ⟨h, rest⟩
    · simp [versionPat, matchesPat] at hm
    simp only [versionPat, matchesPat, Bool.and_eq_true, digitClass, anyClass,
      decide_eq_true_eq, and_true] at hm
    exact ⟨a, b, x, c, d, y, e, f, g, h, rest, rfl, hm.1, hm.2.1, hm.2.2.1,
      hm.2.2.2.1, hm.2.2.2.2.1, hm.2.2.2.2.2.1, hm.2.2.2.2.2.2.1,
      hm.2.2.2.2.2.2.2.1, hm.2.2.2.2.2.2.2.2.1, hm.2.2.2.2.2.2.2.2.2⟩
  · rintro ⟨a, b, x, c, d, y, e, f, g, h, rest, heq, ha, hb, hx, hc, hd, hy,
      he, hf, hg, hh⟩
    simp only [isVersionOk, heq, versionPat, matchesPat, Bool.and_eq_true,
      digitClass, anyClass, decide_eq_true_eq, and_true]
    exact ⟨ha, hb, hx, hc, hd, hy, he, hf, hg, hh⟩

/-- Claim C3 witness: the amended characterization applied at
"01.23.4567". -/
theorem C3_version_validator_witness : isVersionOk (some "01.23.4567") = true :=
  (C3_version_validator.1 "01.23.4567").mpr
    ⟨'0', '1', '.', '2', '3', '.', '4', '5', '6', '7', [], rfl, by decide,
     by decide, by decide, by decide, by decide, by decide, by decide,
     by decide, by decide, by decide⟩

/-- Claim C1 (code bug): with captured prompt "pdu>" and command "get A"
(echoed on the wire as "get A\r"), a raw response consisting of the echo,
the payload "dump", and the trailing prompt produces the reply "dum" — a
payload byte is removed although "dump" contains neither the prompt nor the
echoed command as a byte sequence.  Python `bytes.strip` removes every
leading/trailing byte belonging to the byte set of its argument, not the
argument as a substring. -/
theorem C1_strip_payload_loss :
    containsSeq "pdu>".data "dump".data = false ∧
    containsSeq (sendWire "get A").data "dump".data = false ∧
    sendCommandReply "pdu>".data "get A" ("get A\r" ++ "dump" ++ "pdu>").data
      = "dum" :=
  ⟨by decide, by decide, by decide⟩

/-- Claim C2 (code bug): with valid serial and firmware-version replies and
part-number reply "XX99", identity discovery does raise, but the exception
is the TypeError produced by subscripting the `objects` list with a string
key — not a validation error naming the part number and carrying the
offending value. -/
theorem C2_validation_raises_type_error :
    getInfo ⟨"AB12CD34EF", "XX99", "01.02.2021", "24"⟩
        = Except.error listStrIndexError ∧
    isValidationError (getInfo ⟨"AB12CD34EF", "XX99", "01.02.2021", "24"⟩)
        = false :=
  ⟨rfl, rfl⟩

/-- Claim C6: calling logout when the session is not open — including a
second logout immediately after a first one — performs no send and no
channel or client operation; it only prints "Not logged in.".  The embedded
logout is a total function, so this branch cannot raise. -/
theorem C6_logout_idempotent (s : PduState) :
    (s.logged_in = false →
      logout s = (s, [PduAction.printMsg "Not logged in."])) ∧
    logout (logout s).1
      = ((logout s).1, [PduAction.printMsg "Not logged in."]) := by
  constructor
  · intro h
    simp [logout, h]
  · by_cases h : s.logged_in = true
    · simp [logout, h]
    · simp [logout, h]

/-- Claim C6 witness: a not-logged-in logout and a double logout on
concrete states. -/
theorem C6_logout_idempotent_witness :
    logout ⟨false, true, true⟩
      = (⟨false, true, true⟩, [PduAction.printMsg "Not logged in."]) ∧
    logout (logout ⟨true, true, true⟩).1
      = ((logout ⟨true, true, true⟩).1, [PduAction.printMsg "Not logged in."]) :=
  ⟨(C6_logout_idempotent ⟨false, true, true⟩).1 rfl,
   (C6_logout_idempotent ⟨true, true, true⟩).2⟩

/-- Claim C7: in the on/off loops of main, an index below 1 or above the
outlet count produces only the "no such outlet" warning and no set command,
and the loop continues with the remaining indices; an index inside
[1, outletCount] — including both endpoints — produces exactly one set
command for that index. -/
theorem C7_outlet_range_check (count num : Int) (rest : List Int) :
    mainOnLoop count (num :: rest)
        = mainOnStep count num ++ mainOnLoop count rest ∧
    mainOffLoop count (num :: rest)
        = mainOffStep count num ++ mainOffLoop count rest ∧
    ((num < 1 ∨ num > count) →
      mainOnStep count num = [PduAction.printMsg (warnText num)] ∧
      mainOffStep count num = [PduAction.printMsg (warnText num)]) ∧
    (1 ≤ num → num ≤ count →
      mainOnStep count num
          = [PduAction.send (sendWire (setObjectCmd (onPath num) "0"))] ∧
      mainOffStep count num
          = [PduAction.send (sendWire (setObjectCmd (offPath num) "0"))]) := by
  refine ⟨?_, ?_, ?_, ?_⟩
  · simp [mainOnLoop]
  · simp [mainOffLoop]
  · intro h
    unfold mainOnStep mainOffStep
    rw [if_pos h, if_pos h]
    exact ⟨rfl, rfl⟩
  · intro h1 h2
    have h : ¬ (num < 1 ∨ num > count) := by omega
    unfold mainOnStep mainOffStep
    rw [if_neg h, if_neg h]
    exact ⟨rfl, rfl⟩

/-- Claim C7 witness: indices 0 and 9 warn, indices 1 and 8 each produce
one set command, with 8 outlets. -/
theorem C7_outlet_range_check_witness :
    mainOnStep 8 0 = [PduAction.printMsg (warnText 0)] ∧
    mainOnStep 8 1 = [PduAction.send (sendWire (setObjectCmd (onPath 1) "0"))] ∧
    mainOnStep 8 8 = [PduAction.send (sendWire (setObjectCmd (onPath 8) "0"))] ∧
    mainOffStep 8 9 = [PduAction.printMsg (warnText 9)] :=
  ⟨((C7_outlet_range_check 8 0 []).2.2.1 (Or.inl (by norm_num))).1,
   ((C7_outlet_range_check 8 1 []).2.2.2 (by norm_num) (by norm_num)).1,
   ((C7_outlet_range_check 8 8 []).2.2.2 (by norm_num) (by norm_num)).1,
   ((C7_outlet_range_check 8 9 []).2.2.1 (Or.inr (by norm_num))).2⟩

/-- Claim C8: turn_on_outlet(n) performs exactly one set write of value "0"
to PDU.OutletSystem.Outlet[n].DelayBeforeStartup, and turn_off_outlet(n)
exactly one set write of value "0" to
PDU.OutletSystem.Outlet[n].DelayBeforeShutdown, each emitted on the wire as
`set <path> <value>` followed by a carriage return. -/
theorem C8_outlet_set_wire (n : Int) :
    turn_on_actions n =
      [PduAction.send
        ("set PDU.OutletSystem.Outlet[" ++ toString n
          ++ "].DelayBeforeStartup 0\r")] ∧
    turn_off_actions n =
      [PduAction.send
        ("set PDU.OutletSystem.Outlet[" ++ toString n
          ++ "].DelayBeforeShutdown 0\r")] := by
  unfold turn_on_actions turn_off_actions
  rw [onWire_eq, offWire_eq]
  exact ⟨rfl, rfl⟩

/-- Claim C9: when identity validation fails during login, the exception
propagates before the logged-in flag is set: the already-opened client and
channel remain open, the flag remains false, and a subsequent logout takes
the not-logged-in branch, printing a message and closing neither. -/
theorem C9_login_failure_leaves_open (r : DeviceReplies) (e : PyError)
    (h : getInfo r = Except.error e) :
    (login_after_connect initState r).1.logged_in = false ∧
    (login_after_connect initState r).1.channelOpen = true ∧
    (login_after_connect initState r).1.clientOpen = true ∧
    logout (login_after_connect initState r).1
      = ((login_after_connect initState r).1,
         [PduAction.printMsg "Not logged in."]) := by
  unfold login_after_connect
  rw [h]
  exact ⟨rfl, rfl, rfl, rfl⟩

/-- Claim C9 witness: the failed-validation login at the "XX99" device,
followed by logout. -/
theorem C9_login_failure_leaves_open_witness :
    (login_after_connect initState
        ⟨"AB12CD34EF", "XX99", "01.02.2021", "24"⟩).1.logged_in = false ∧
    logout (login_after_connect initState
        ⟨"AB12CD34EF", "XX99", "01.02.2021", "24"⟩).1
      = ((login_after_connect initState
            ⟨"AB12CD34EF", "XX99", "01.02.2021", "24"⟩).1,
         [PduAction.printMsg "Not logged in."]) :=
  ⟨(C9_login_failure_leaves_open ⟨"AB12CD34EF", "XX99", "01.02.2021", "24"⟩
      listStrIndexError rfl).1,
   (C9_login_failure_leaves_open ⟨"AB12CD34EF", "XX99", "01.02.2021", "24"⟩
      listStrIndexError rfl).2.2.2⟩

/-- Claim C10: identity discovery applies no validator to the outlet-count
reply — with the other three replies valid, discovery succeeds whatever the
count string is; the integer conversion is deferred to number_of_outlets,
which raises ValueError on a non-numeric stored count and returns the
denoted integer for a decimal digit literal. -/
theorem C10_count_unvalidated (r : DeviceReplies)
    (hv : isVersionOk (some r.version) = true)
    (hs : isSerialOk (some r.serial) = true)
    (hp : isPartNumberOk r.part = true) :
    getInfo r = Except.ok ⟨r.serial, r.part, r.version, r.count⟩ ∧
    (pyIntParse r.count = none →
      number_of_outlets ⟨r.serial, r.part, r.version, r.count⟩
        = Except.error (PyError.valueError
            ("invalid literal for int() with base 10: " ++ r.count))) ∧
    (r.count.data ≠ [] → (∀ c ∈ r.count.data, digitClass c = true) →
      number_of_outlets ⟨r.serial, r.part, r.version, r.count⟩
        = Except.ok ((decValue r.count.data : Nat) : Int)) := by
  refine ⟨?_, ?_, ?_⟩
  · simp [getInfo, hv, hs, hp]
  · intro hn
    simp [number_of_outlets, hn]
  · intro hne hdig
    simp [number_of_outlets, pyIntParse_digits r.count.data hne hdig]

/-- Claim C10 witness: a device with valid identity and count reply "24"
passes discovery and reports 24 outlets. -/
theorem C10_count_unvalidated_witness :
    getInfo ⟨"AB12CD34EF", "EILB13", "01.02.2021", "24"⟩
      = Except.ok ⟨"AB12CD34EF", "EILB13", "01.02.2021", "24"⟩ ∧
    number_of_outlets ⟨"AB12CD34EF", "EILB13", "01.02.2021", "24"⟩
      = Except.ok 24 :=
  ⟨(C10_count_unvalidated ⟨"AB12CD34EF", "EILB13", "01.02.2021", "24"⟩
      (by decide) (by decide) (by decide)).1,
   (C10_count_unvalidated ⟨"AB12CD34EF", "EILB13", "01.02.2021", "24"⟩
      (by decide) (by decide) (by decide)).2.2 (by decide) (by decide)⟩
